import Mathlib

/-
Verification of the "Smartie" collapsible chat widget
(src/frontend/src/components/Chatbot.jsx).

The widget keeps four pieces of component-local state
(isOpen, messages, inputValue, sessionId), and exposes three
user-driven operations: toggling the panel open or closed,
editing the draft, and sending the draft to the backend
chat endpoint.  handleSendMessage is asynchronous: it first
appends the user message and clears the draft synchronously,
then issues one POST request and, when the promise settles,
appends either the bot reply built from the parsed body or a
fixed fallback message.  We embed that split explicitly as
sendBegin (the synchronous part, returning the request that
will be issued, if any) followed by sendSettle (the
continuation applied to the outcome of the fetch), so that
interleavings with other events during the in-flight period
are representable.
-/

namespace Chatbot

/-- Model of JavaScript String.prototype.trim: drop whitespace
from both ends of the string.  Defined over the character list so
that it evaluates in the kernel. -/
def jsTrim (s : String) : String :=
  String.mk (((s.data.dropWhile Char.isWhitespace).reverse.dropWhile Char.isWhitespace).reverse)

/-- Who produced a chat message: the user or the bot. -/
inductive Sender
  | user
  | bot
  deriving DecidableEq, Repr

/-- One entry of the conversation log.  The text is an Option
because the JSX builds the bot message as text = data.response,
which is the JavaScript value undefined (here: none) when the
parsed body lacks that field.  The references field is likewise
absent (none) on user messages and on the fallback message. -/
structure Message where
  text : Option String
  sender : Sender
  references : Option (List String)
  deriving DecidableEq, Repr

/-- The state owned by one mounted widget instance: the useState
cells isOpen, messages, inputValue and sessionId. -/
structure ChatState where
  isOpen : Bool
  messages : List Message
  inputValue : String
  sessionId : String
  deriving DecidableEq, Repr

/-- A successfully parsed JSON response body, with the two fields
the component reads.  Each is optional because JavaScript property
access on a missing key yields undefined rather than an error. -/
structure ChatBody where
  response : Option String
  references : Option (List String)
  deriving DecidableEq, Repr

/-- Outcome of the fetch call as the component observes it:
either the promise rejects (network error), or a response arrives
carrying its ok flag (status in the 2xx range) and a body that
either parses to a ChatBody or fails to parse (none). -/
inductive FetchOutcome
  | networkError
  | httpResponse (ok : Bool) (body : Option ChatBody)
  deriving DecidableEq, Repr

/-- The outbound HTTP request issued by handleSendMessage, with
the header list and the JSON body rendered as ordered field lists
(JSON.stringify of an object literal emits exactly its keys). -/
structure Request where
  method : String
  path : String
  headers : List (String × String)
  body : List (String × String)
  deriving DecidableEq, Repr

/-- The base-36 digit alphabet used by Number.prototype.toString(36):
0-9 then a-z. -/
def base36Char (d : Fin 36) : Char :=
  if d.val < 10 then Char.ofNat (48 + d.val) else Char.ofNat (87 + d.val)

/-- Model of Math.random().toString(36).substr(2, 9): the first
nine base-36 fraction digits of the random number, rendered as
characters.  The digit list is the random seed of the model. -/
def randomSuffix (digits : List (Fin 36)) : String :=
  String.mk ((digits.take 9).map base36Char)

/-- The session identifier generated on mount:
the string literal prefix followed by the random suffix
(sessionId = 'session-' + Math.random().toString(36).substr(2, 9)). -/
def genSessionId (digits : List (Fin 36)) : String :=
  "session-" ++ randomSuffix digits

/-- The fixed greeting seeded into the message log by the initial
useState value. -/
def greeting : Message :=
  { text := some "Hey! I'm Smartie, your personal MadeWithNestle assistant. Ask me anything, and I'll quickly search the entire site to find the answers you need!",
    sender := Sender.bot,
    references := none }

/-- The fixed apology text appended by the catch block. -/
def fallbackText : String :=
  "Sorry, I'm having trouble connecting to the server. Please try again later."

/-- The fallback bot message appended by the catch block. -/
def fallbackMessage : Message :=
  { text := some fallbackText, sender := Sender.bot, references := none }

/-- State of a freshly mounted widget: isOpen false, the log
holding only the greeting, an empty draft, and the sessionId
generated by the mount effect from the random seed. -/
def initWidget (digits : List (Fin 36)) : ChatState :=
  { isOpen := false,
    messages := [greeting],
    inputValue := "",
    sessionId := genSessionId digits }

/-- The header click handler: setIsOpen (not isOpen). -/
def toggleOpen (s : ChatState) : ChatState :=
  { s with isOpen := !s.isOpen }

/-- The input onChange handler: setInputValue to the field text. -/
def updateDraft (s : ChatState) (t : String) : ChatState :=
  { s with inputValue := t }

/-- The user message built by handleSendMessage from the current
draft: text = inputValue (un-trimmed), sender = user. -/
def userMessage (s : ChatState) : Message :=
  { text := some s.inputValue, sender := Sender.user, references := none }

/-- The request handleSendMessage issues: POST /chat with a JSON
content type and a body holding exactly the message (the draft at
call time) and session_id fields. -/
def mkRequest (s : ChatState) : Request :=
  { method := "POST",
    path := "/chat",
    headers := [("Content-Type", "application/json")],
    body := [("message", s.inputValue), ("session_id", s.sessionId)] }

/-- The synchronous prefix of handleSendMessage: if the trimmed
draft is empty it returns without doing anything (no message, no
request); otherwise it appends the user message, clears the
draft, and hands back the request about to be issued. -/
def sendBegin (s : ChatState) : ChatState × Option Request :=
  if jsTrim s.inputValue = "" then (s, none)
  else ({ s with messages := s.messages ++ [userMessage s], inputValue := "" },
        some (mkRequest s))

/-- The continuation of handleSendMessage once the fetch settles:
on an ok response whose body parsed, append the bot message built
from the body fields; in every other case (rejection, non-2xx
status which the code turns into a thrown error, or a body parse
failure) the catch block appends the fallback message.  The
functional setMessages update appends to whatever the log is at
settle time. -/
def sendSettle (s : ChatState) (r : FetchOutcome) : ChatState :=
  match r with
  | FetchOutcome.httpResponse true (some b) =>
      { s with messages :=
          s.messages ++ [{ text := b.response, sender := Sender.bot, references := b.references }] }
  | _ => { s with messages := s.messages ++ [fallbackMessage] }

/-- Whether a fetch outcome takes the catch path: a rejection, a
response with ok = false, or a body that fails to parse. -/
def isFailure : FetchOutcome → Bool
  | FetchOutcome.networkError => true
  | FetchOutcome.httpResponse ok body => !ok || body.isNone

/-- handleSendMessage run to completion with fetch outcome r and
no interleaved events: the guard, the synchronous part, then the
settle.  Returns the final state and the request issued (none
when the guard made the call a no-op). -/
def handleSendMessage (s : ChatState) (r : FetchOutcome) : ChatState × Option Request :=
  match sendBegin s with
  | (s1, none) => (s1, none)
  | (s1, some req) => (sendSettle s1 r, some req)

/-- One event-loop step of a mounted widget: a header click, an
input edit, the synchronous part of a send, or the settling of an
in-flight fetch.  Settling is allowed from any state because the
functional state updates apply to the log current at settle time,
whatever happened in between. -/
inductive Step : ChatState → ChatState → Prop
  | toggle (s : ChatState) : Step s (toggleOpen s)
  | draft (s : ChatState) (t : String) : Step s (updateDraft s t)
  | sendStart (s : ChatState) : Step s (sendBegin s).1
  | settle (s : ChatState) (r : FetchOutcome) : Step s (sendSettle s r)

/-- States a mounted widget can be in: the mount state for some
random seed, closed under steps. -/
inductive Reachable : ChatState → Prop
  | mount (digits : List (Fin 36)) : Reachable (initWidget digits)
  | step {s s' : ChatState} : Reachable s → Step s s' → Reachable s'

end Chatbot

namespace Chatbot

/-- A concrete widget state with draft "hello", for exercising
the theorems on explicit inputs. -/
def sampleState : ChatState :=
  { isOpen := false,
    messages := [greeting],
    inputValue := "hello",
    sessionId := "session-k3j9x2m1p" }

/-- A state whose draft is non-empty but padded with whitespace. -/
def paddedState : ChatState :=
  { sampleState with inputValue := "  hi  " }

/-- A state whose draft is whitespace-only. -/
def blankDraftState : ChatState :=
  { sampleState with inputValue := "   " }

/-- Helper: a prefix of a list starting with m also starts with m. -/
theorem head_eq_of_isPrefixOf {xs ys : List Message} (h : xs <+: ys) {m : Message}
    (hx : xs.head? = some m) : ys.head? = some m := by
  obtain ⟨t, rfl⟩ := h
  cases xs with
  | nil => simp at hx
  | cons a l => simpa using hx

/-- Helper: every failure outcome routes sendSettle through the
catch block, appending the fallback message. -/
theorem sendSettle_failure (s : ChatState) (r : FetchOutcome) (hf : isFailure r = true) :
    sendSettle s r = { s with messages := s.messages ++ [fallbackMessage] } := by
  cases r with
  | networkError => rfl
  | httpResponse ok body =>
      cases ok with
      | false => rfl
      | true =>
          cases body with
          | none => rfl
          | some b => simp [isFailure] at hf

/-- C3: when the draft trims to the empty string, send() leaves
the state untouched — no message is appended, the draft is not
cleared — and no request is issued. -/
theorem send_noop_on_blank_draft (s : ChatState) (r : FetchOutcome)
    (h : jsTrim s.inputValue = "") :
    handleSendMessage s r = (s, none) := by
  simp [handleSendMessage, sendBegin, h]

/-- Witness for C3 at a concrete whitespace-only draft. -/
theorem send_noop_on_blank_draft_witness :
    handleSendMessage blankDraftState FetchOutcome.networkError = (blankDraftState, none) :=
  send_noop_on_blank_draft blankDraftState FetchOutcome.networkError (by decide)

/-- C4: when the draft is non-empty after trimming, the
synchronous part of send() appends the user message built from
the draft and clears the draft, before and independently of the
fetch outcome: whatever outcome r later settles the request, the
log after the full call extends this synchronous append. -/
theorem send_appends_user_message_synchronously (s : ChatState)
    (h : jsTrim s.inputValue ≠ "") :
    (sendBegin s).1.messages = s.messages ++ [userMessage s] ∧
    (sendBegin s).1.inputValue = "" ∧
    userMessage s = { text := some s.inputValue, sender := Sender.user, references := none } ∧
    ∀ r : FetchOutcome, s.messages ++ [userMessage s] <+: (handleSendMessage s r).1.messages := by
  refine ⟨by simp [sendBegin, h], by simp [sendBegin, h], rfl, ?_⟩
  intro r
  by_cases hs : isFailure r = true
  · simp only [handleSendMessage, sendBegin, if_neg h, sendSettle_failure _ _ hs]
    exact List.prefix_append _ _
  · cases r with
    | networkError => simp [isFailure] at hs
    | httpResponse ok body =>
        cases ok with
        | false => simp [isFailure] at hs
        | true =>
            cases body with
            | none => simp [isFailure] at hs
            | some b =>
                simp only [handleSendMessage, sendBegin, if_neg h, sendSettle]
                exact List.prefix_append _ _

/-- Witness for C4 at the concrete draft "hello". -/
theorem send_appends_user_message_synchronously_witness :
    (sendBegin sampleState).1.messages = sampleState.messages ++ [userMessage sampleState] ∧
    (sendBegin sampleState).1.inputValue = "" ∧
    userMessage sampleState =
      { text := some "hello", sender := Sender.user, references := none } ∧
    ∀ r : FetchOutcome,
      sampleState.messages ++ [userMessage sampleState] <+:
        (handleSendMessage sampleState r).1.messages :=
  send_appends_user_message_synchronously sampleState (by decide)

/-- C8: toggleOpen flips only the isOpen boolean, leaving the
log, the draft and the session identifier unchanged, and applying
it twice is the identity on the whole state. -/
theorem toggleOpen_involutive (s : ChatState) :
    toggleOpen (toggleOpen s) = s ∧
    (toggleOpen s).isOpen = !s.isOpen ∧
    (toggleOpen s).messages = s.messages ∧
    (toggleOpen s).inputValue = s.inputValue ∧
    (toggleOpen s).sessionId = s.sessionId := by
  refine ⟨?_, rfl, rfl, rfl, rfl⟩
  cases s
  simp [toggleOpen]

/-- Witness for C8 at a concrete state. -/
theorem toggleOpen_involutive_witness :
    toggleOpen (toggleOpen sampleState) = sampleState ∧
    (toggleOpen sampleState).isOpen = !sampleState.isOpen ∧
    (toggleOpen sampleState).messages = sampleState.messages ∧
    (toggleOpen sampleState).inputValue = sampleState.inputValue ∧
    (toggleOpen sampleState).sessionId = sampleState.sessionId :=
  toggleOpen_involutive sampleState

/-- C10: the trim is only a guard.  For a draft that survives
trimming but differs from its trimmed form (it has surrounding
whitespace), the appended user message and the message field of
the request body carry the original un-trimmed draft, not the
trimmed form. -/
theorem send_carries_untrimmed_draft (s : ChatState)
    (h : jsTrim s.inputValue ≠ "") (hw : s.inputValue ≠ jsTrim s.inputValue) :
    (userMessage s).text = some s.inputValue ∧
    (userMessage s).text ≠ some (jsTrim s.inputValue) ∧
    (sendBegin s).1.messages = s.messages ++ [userMessage s] ∧
    (sendBegin s).2 = some (mkRequest s) ∧
    (mkRequest s).body = [("message", s.inputValue), ("session_id", s.sessionId)] := by
  refine ⟨rfl, ?_, by simp [sendBegin, h], by simp [sendBegin, h], rfl⟩
  intro hc
  exact hw (Option.some.inj hc)

/-- Witness for C10 at the concrete padded draft "  hi  ". -/
theorem send_carries_untrimmed_draft_witness :
    (userMessage paddedState).text = some "  hi  " ∧
    (userMessage paddedState).text ≠ some (jsTrim "  hi  ") ∧
    (sendBegin paddedState).1.messages = paddedState.messages ++ [userMessage paddedState] ∧
    (sendBegin paddedState).2 = some (mkRequest paddedState) ∧
    (mkRequest paddedState).body =
      [("message", "  hi  "), ("session_id", paddedState.sessionId)] :=
  send_carries_untrimmed_draft paddedState (by decide) (by decide)

end Chatbot

namespace Chatbot

/-- C1: for a draft that survives trimming, every failing fetch
outcome — rejection, non-2xx status, or unparseable body — makes
the completed send() append exactly one bot message carrying the
fixed fallback text after the user message, and nothing else.
handleSendMessage is a total function, so no exception escapes. -/
theorem send_failure_appends_one_fallback (s : ChatState) (r : FetchOutcome)
    (hd : jsTrim s.inputValue ≠ "") (hf : isFailure r = true) :
    (handleSendMessage s r).1.messages = s.messages ++ [userMessage s, fallbackMessage] ∧
    fallbackMessage.text = some fallbackText ∧
    fallbackMessage.sender = Sender.bot := by
  refine ⟨?_, rfl, rfl⟩
  simp only [handleSendMessage, sendBegin, if_neg hd, sendSettle_failure _ _ hf]
  simp

/-- Witness for C1 at the concrete draft "hello" and a network
rejection. -/
theorem send_failure_appends_one_fallback_witness :
    (handleSendMessage sampleState FetchOutcome.networkError).1.messages =
      sampleState.messages ++ [userMessage sampleState, fallbackMessage] ∧
    fallbackMessage.text = some fallbackText ∧
    fallbackMessage.sender = Sender.bot :=
  send_failure_appends_one_fallback sampleState FetchOutcome.networkError
    (by decide) (by decide)

/-- C5: for a draft that survives trimming, a 2xx response whose
body parses with response = resp and references = refs makes the
completed send() append exactly one bot message with that text
and that reference sequence after the user message. -/
theorem send_success_appends_bot_reply (s : ChatState) (resp : String) (refs : List String)
    (hd : jsTrim s.inputValue ≠ "") :
    (handleSendMessage s
        (FetchOutcome.httpResponse true (some ⟨some resp, some refs⟩))).1.messages =
      s.messages ++ [userMessage s,
        { text := some resp, sender := Sender.bot, references := some refs }] := by
  simp only [handleSendMessage, sendBegin, if_neg hd, sendSettle]
  simp

/-- Witness for C5 at the mocked KitKat response, with its
one-element reference sequence. -/
theorem send_success_appends_bot_reply_witness :
    (handleSendMessage sampleState
        (FetchOutcome.httpResponse true
          (some ⟨some "Try our KitKat!", some ["https://example.com/kitkat"]⟩))).1.messages =
      sampleState.messages ++ [userMessage sampleState,
        { text := some "Try our KitKat!", sender := Sender.bot,
          references := some ["https://example.com/kitkat"] }] :=
  send_success_appends_bot_reply sampleState "Try our KitKat!"
    ["https://example.com/kitkat"] (by decide)

/-- C6: every non-no-op send() issues exactly one request, and it
is a POST to /chat with the application/json content type and a
body whose fields are exactly message (the draft at call time)
and session_id (the current session identifier, verbatim). -/
theorem send_request_shape (s : ChatState) (r : FetchOutcome)
    (hd : jsTrim s.inputValue ≠ "") :
    (handleSendMessage s r).2 =
      some { method := "POST",
             path := "/chat",
             headers := [("Content-Type", "application/json")],
             body := [("message", s.inputValue), ("session_id", s.sessionId)] } := by
  cases r with
  | networkError => simp [handleSendMessage, sendBegin, if_neg hd, mkRequest]
  | httpResponse ok body => simp [handleSendMessage, sendBegin, if_neg hd, mkRequest]

/-- Witness for C6 at the concrete draft "hello". -/
theorem send_request_shape_witness :
    (handleSendMessage sampleState FetchOutcome.networkError).2 =
      some { method := "POST",
             path := "/chat",
             headers := [("Content-Type", "application/json")],
             body := [("message", "hello"), ("session_id", "session-k3j9x2m1p")] } :=
  send_request_shape sampleState FetchOutcome.networkError (by decide)

/-- C9: the settle step appends the fallback message exactly on
the failure outcomes (rejection, non-2xx, parse failure); every
non-failure outcome is a 2xx with a parsed body, and then the
normal bot message is appended with text = the body's response
field — in particular, when that field is absent the appended
message has undefined text (none), which is not the fallback
text, rather than being treated as a failure. -/
theorem fallback_exactly_on_failure (s : ChatState) (r : FetchOutcome) :
    (isFailure r = true →
      sendSettle s r = { s with messages := s.messages ++ [fallbackMessage] }) ∧
    (∀ b : ChatBody, r = FetchOutcome.httpResponse true (some b) →
      isFailure r = false ∧
      sendSettle s r = { s with messages :=
        s.messages ++ [{ text := b.response, sender := Sender.bot, references := b.references }] }) ∧
    (isFailure r = false → ∃ b : ChatBody, r = FetchOutcome.httpResponse true (some b)) ∧
    (∀ b : ChatBody, b.response = none →
      ({ text := b.response, sender := Sender.bot, references := b.references } : Message).text ≠
        some fallbackText) := by
  refine ⟨sendSettle_failure s r, ?_, ?_, ?_⟩
  · rintro b rfl
    exact ⟨by simp [isFailure], rfl⟩
  · intro hf
    cases r with
    | networkError => simp [isFailure] at hf
    | httpResponse ok body =>
        cases ok with
        | false => simp [isFailure] at hf
        | true =>
            cases body with
            | none => simp [isFailure] at hf
            | some b => exact ⟨b, rfl⟩
  · intro b hb
    simp [hb]

/-- Witness for C9: a 2xx body without a response field yields a
normal bot message with undefined text, not the fallback. -/
theorem fallback_exactly_on_failure_witness :
    isFailure (FetchOutcome.httpResponse true (some ⟨none, none⟩)) = false ∧
    sendSettle sampleState (FetchOutcome.httpResponse true (some ⟨none, none⟩)) =
      { sampleState with messages :=
          sampleState.messages ++ [{ text := none, sender := Sender.bot, references := none }] } :=
  (fallback_exactly_on_failure sampleState
      (FetchOutcome.httpResponse true (some ⟨none, none⟩))).2.1 ⟨none, none⟩ rfl

end Chatbot

namespace Chatbot

/-- Helper: every event-loop step only appends to the message
log — the prior log is a prefix of the new one. -/
theorem step_log_mono {s s' : ChatState} (h : Step s s') :
    s.messages <+: s'.messages := by
  cases h with
  | toggle => exact List.prefix_rfl
  | draft t => exact List.prefix_rfl
  | sendStart =>
      by_cases hd : jsTrim s.inputValue = ""
      · simp [sendBegin, hd]
      · simp only [sendBegin, if_neg hd]
        exact List.prefix_append _ _
  | settle r =>
      by_cases hf : isFailure r = true
      · rw [sendSettle_failure _ _ hf]
        exact List.prefix_append _ _
      · cases r with
        | networkError => simp [isFailure] at hf
        | httpResponse ok body =>
            cases ok with
            | false => simp [isFailure] at hf
            | true =>
                cases body with
                | none => simp [isFailure] at hf
                | some b => exact List.prefix_append _ _

/-- Helper: in every reachable state the log still starts with
the greeting. -/
theorem reachable_head_greeting {s : ChatState} (h : Reachable s) :
    s.messages.head? = some greeting := by
  induction h with
  | mount digits => rfl
  | step hr hst ih => exact head_eq_of_isPrefixOf (step_log_mono hst) ih

/-- C2: the log is append-only (every step extends it, never
removing or modifying an entry), its first element in every
reachable state is the fixed greeting, and immediately after
initialization the log is exactly the one-element list holding
the bot greeting. -/
theorem log_append_only_greeting_first :
    (∀ s s' : ChatState, Step s s' → s.messages <+: s'.messages) ∧
    (∀ s : ChatState, Reachable s → s.messages.head? = some greeting) ∧
    ∀ digits : List (Fin 36),
      (initWidget digits).messages = [greeting] ∧
      (initWidget digits).messages.length = 1 ∧
      greeting.sender = Sender.bot :=
  ⟨fun _ _ h => step_log_mono h,
   fun _ h => reachable_head_greeting h,
   fun _ => ⟨rfl, rfl, rfl⟩⟩

/-- Witness for C2 at a concrete step and a concrete mount. -/
theorem log_append_only_greeting_first_witness :
    sampleState.messages <+: (toggleOpen sampleState).messages ∧
    (initWidget ([] : List (Fin 36))).messages.head? = some greeting ∧
    (initWidget ([] : List (Fin 36))).messages = [greeting] :=
  ⟨log_append_only_greeting_first.1 sampleState (toggleOpen sampleState)
      (Step.toggle sampleState),
   log_append_only_greeting_first.2.1 (initWidget ([] : List (Fin 36)))
      (Reachable.mount ([] : List (Fin 36))),
   (log_append_only_greeting_first.2.2 ([] : List (Fin 36))).1⟩

/-- Helper: every base-36 digit renders to an alphanumeric
character. -/
theorem base36Char_isAlphanum : ∀ d : Fin 36, (base36Char d).isAlphanum = true := by
  decide

/-- Counterexample to C7 as stated: the generated identifier is
not an alphanumeric string — at the concrete seed a, b, c it is
"session-abc", whose ninth character is the hyphen. -/
theorem genSessionId_not_alphanumeric :
    ¬ ((genSessionId [(10 : Fin 36), 11, 12]).data.all Char.isAlphanum = true) := by
  decide

/-- C7 (amended): the identifier generated at mount is the fixed
prefix "session-" followed by a random alphanumeric (base-36)
suffix; it is generated once — no event-loop step ever changes
sessionId after the mount effect sets it — and every request of
the instance carries it verbatim in the session_id field. -/
theorem sessionId_generation (digits : List (Fin 36)) :
    genSessionId digits = "session-" ++ randomSuffix digits ∧
    (randomSuffix digits).data.all Char.isAlphanum = true ∧
    (initWidget digits).sessionId = genSessionId digits ∧
    (∀ s s' : ChatState, Step s s' → s'.sessionId = s.sessionId) ∧
    (∀ s : ChatState, jsTrim s.inputValue ≠ "" →
      (sendBegin s).2 = some (mkRequest s) ∧
      (mkRequest s).body = [("message", s.inputValue), ("session_id", s.sessionId)]) := by
  refine ⟨rfl, ?_, rfl, ?_, ?_⟩
  · rw [List.all_eq_true]
    intro c hc
    obtain ⟨d, hd, rfl⟩ := List.mem_map.1 hc
    exact base36Char_isAlphanum d
  · intro s s' h
    cases h with
    | toggle => rfl
    | draft t => rfl
    | sendStart =>
        by_cases hd : jsTrim s.inputValue = ""
        · simp [sendBegin, hd]
        · simp [sendBegin, hd]
    | settle r =>
        cases r with
        | networkError => rfl
        | httpResponse ok body =>
            cases ok with
            | false => rfl
            | true =>
                cases body with
                | none => rfl
                | some b => rfl
  · intro s hd
    exact ⟨by simp [sendBegin, hd], rfl⟩

/-- Witness for C7 (amended) at a concrete seed, a concrete step
and a concrete request. -/
theorem sessionId_generation_witness :
    genSessionId [(10 : Fin 36), 11, 12] =
      "session-" ++ randomSuffix [(10 : Fin 36), 11, 12] ∧
    (toggleOpen sampleState).sessionId = sampleState.sessionId ∧
    (mkRequest sampleState).body =
      [("message", "hello"), ("session_id", "session-k3j9x2m1p")] :=
  ⟨(sessionId_generation [(10 : Fin 36), 11, 12]).1,
   (sessionId_generation [(10 : Fin 36), 11, 12]).2.2.2.1 sampleState
      (toggleOpen sampleState) (Step.toggle sampleState),
   ((sessionId_generation [(10 : Fin 36), 11, 12]).2.2.2.2 sampleState (by decide)).2⟩

end Chatbot
